import Mathlib

/-!
Verification of the metrics normalization and aggregation pipeline of
scripts/data_collection/collect_metrics.py.

Shallow embedding conventions:
- Python floats are modelled as exact rationals (the claims under scrutiny are
  about the exact arithmetic the code performs); the one square root in
  calculate_stats is modelled in the real numbers via Real.sqrt.
- Python dicts are modelled as insertion-ordered association lists with the
  update-in-place-keeps-position semantics of CPython (dictInsert / dictLookup).
- Python exceptions are modelled with Option / Except or an explicit raised
  flag; a function that cannot raise is total.
- External collaborators (the requests transport, json.loads decoding, the
  datetime rendering) are modelled at their interface: the transport result is
  an Except value, an inbound websocket message is an already-decoded
  Option PyVal, and isoformat is an abstract rendering function whose output
  no claim depends on.
-/

namespace Collect

/-! ### Characters and Python-style string helpers -/

def lbraceChar : Char := Char.ofNat 123

def rbraceChar : Char := Char.ofNat 125

def squoteChar : Char := Char.ofNat 39

def dquoteChar : Char := '"'

/-- Python str.strip() on a character list: drop whitespace at both ends. -/
def pyStripL (cs : List Char) : List Char :=
  ((cs.dropWhile Char.isWhitespace).reverse.dropWhile Char.isWhitespace).reverse

/-- Python str.strip(<double quote>) semantics: drop every leading and trailing
double-quote character. -/
def stripQuotes (cs : List Char) : List Char :=
  ((cs.dropWhile (· = dquoteChar)).reverse.dropWhile (· = dquoteChar)).reverse

/-- Python str.rstrip(<closing brace>) semantics: drop every trailing brace. -/
def rstripChar (c : Char) (cs : List Char) : List Char :=
  (cs.reverse.dropWhile (· = c)).reverse

/-- Python str.split(sep) for a one-character separator: keeps empty fields. -/
def splitOnChar (sep : Char) : List Char → List (List Char)
  | [] => [[]]
  | c :: rest =>
    match splitOnChar sep rest with
    | [] => [[]]
    | grp :: grps => if c = sep then [] :: grp :: grps else (c :: grp) :: grps

/-- Python str.split() with no separator: split on whitespace runs, no empty
fields.  The accumulator holds the current field reversed. -/
def pySplitWsAux : List Char → List Char → List (List Char)
  | cur, [] => if cur.isEmpty then [] else [cur.reverse]
  | cur, c :: rest =>
      if c.isWhitespace then
        if cur.isEmpty then pySplitWsAux [] rest
        else cur.reverse :: pySplitWsAux [] rest
      else pySplitWsAux (c :: cur) rest

def pySplitWs (cs : List Char) : List (List Char) := pySplitWsAux [] cs

/-- Python s.rsplit(sep, 1) unpacked into two pieces; none when sep is absent
(in which case the two-variable unpacking raises ValueError). -/
def rsplitChar (sep : Char) (cs : List Char) : Option (List Char × List Char) :=
  let r := cs.reverse
  let valueRev := r.takeWhile (· ≠ sep)
  match r.dropWhile (· ≠ sep) with
  | [] => none
  | _ :: nameRev => some (nameRev.reverse, valueRev.reverse)

/-- Python s.split(sep, 1) unpacked into two pieces; none when sep is absent. -/
def splitOnceChar (sep : Char) : List Char → Option (List Char × List Char)
  | [] => none
  | c :: rest =>
      if c = sep then some ([], rest)
      else (splitOnceChar sep rest).map (fun p => (c :: p.1, p.2))

/-! ### Python float() on decimal literals -/

def digitsToNat (cs : List Char) : Nat :=
  cs.foldl (fun a c => 10 * a + (c.toNat - 48)) 0

/-- Mantissa of a decimal literal: digits with an optional fractional part. -/
def parseMantissa (cs : List Char) : Option (ℚ × List Char) :=
  let intDigits := cs.takeWhile Char.isDigit
  let rest1 := cs.dropWhile Char.isDigit
  match rest1 with
  | '.' :: rest2 =>
      let fracDigits := rest2.takeWhile Char.isDigit
      let rest3 := rest2.dropWhile Char.isDigit
      if intDigits.isEmpty && fracDigits.isEmpty then none
      else some ((digitsToNat intDigits : ℚ) +
        (digitsToNat fracDigits : ℚ) / (10 : ℚ) ^ fracDigits.length, rest3)
  | _ =>
      if intDigits.isEmpty then none
      else some ((digitsToNat intDigits : ℚ), rest1)

def expFinish (m : ℚ) (cs : List Char) (neg : Bool) : Option ℚ :=
  let ds := cs.takeWhile Char.isDigit
  if ds.isEmpty || !(cs.dropWhile Char.isDigit).isEmpty then none
  else some (if neg then m / (10 : ℚ) ^ digitsToNat ds else m * (10 : ℚ) ^ digitsToNat ds)

def parseFloatPos (cs : List Char) : Option ℚ :=
  match parseMantissa cs with
  | none => none
  | some (m, rest) =>
      match rest with
      | [] => some m
      | e :: rest2 =>
          if e = 'e' ∨ e = 'E' then
            match rest2 with
            | '+' :: rest3 => expFinish m rest3 false
            | '-' :: rest3 => expFinish m rest3 true
            | rest3 => expFinish m rest3 false
          else none

/-- Models the Python builtin float() on the plain decimal literals produced by
the exposition format: optional surrounding whitespace, optional sign, digits
with optional fractional part and optional exponent.  Digit-group underscores
and the inf and nan spellings are not modelled; they do not occur in the
inputs considered by the claims. -/
def parseFloat? (s : String) : Option ℚ :=
  let cs := pyStripL s.toList
  match cs with
  | '+' :: rest => parseFloatPos rest
  | '-' :: rest => (parseFloatPos rest).map Neg.neg
  | rest => parseFloatPos rest

/-! ### Python dicts as insertion-ordered association lists -/

/-- Python d[k] = v: replace in place when the key exists (keeping its
position), otherwise append at the end. -/
def dictInsert {α : Type} (d : List (String × α)) (k : String) (v : α) :
    List (String × α) :=
  match d with
  | [] => [(k, v)]
  | (k', v') :: rest => if k' = k then (k, v) :: rest else (k', v') :: dictInsert rest k v

/-- Python d.get(k) / d[k]: first (unique) binding of the key. -/
def dictLookup {α : Type} (d : List (String × α)) (k : String) : Option α :=
  match d with
  | [] => none
  | (k', v) :: rest => if k' = k then some v else dictLookup rest k

/-- Python dict(items): fold the item list into a dict, later duplicates
overriding earlier ones in place. -/
def dictFromItems {α : Type} (items : List (String × α)) : List (String × α) :=
  items.foldl (fun acc kv => dictInsert acc kv.1 kv.2) []

/-! ### The exposition-format parser (MetricsCollector._parse_prometheus_metrics) -/

/-- One parsed exposition sample: metric name, label mapping, numeric value. -/
structure Sample where
  name : String
  labels : List (String × String)
  value : ℚ
deriving DecidableEq

/-- Models the Python repr of a label string, which contains no quote,
backslash or control characters in the exposition inputs considered: the
string between single quotes. -/
def pyStrRepr (s : String) : String :=
  String.singleton squoteChar ++ s ++ String.singleton squoteChar

/-- Models the f-string rendering of a labels dict, as used to build the
sample identity key: single-quoted keys and values, colon-space separated,
comma-space between items, surrounded by braces. -/
def pyDictRepr (labels : List (String × String)) : String :=
  "\x7b" ++
    String.intercalate ", " (labels.map (fun kv => pyStrRepr kv.1 ++ ": " ++ pyStrRepr kv.2)) ++
  "\x7d"

/-- The body of the per-line loop of _parse_prometheus_metrics: strip the
line, skip empties and comments, then parse either the labelled shape
name-labels-value or the unlabelled shape name-value.  Any failure mode the
Python try block catches (ValueError or IndexError) yields none. -/
def lineSample (rawLine : String) : Option (String × Sample) :=
  let cs := pyStripL rawLine.toList
  if cs.isEmpty then none
  else if cs.head? = some '#' then none
  else if cs.any (· = lbraceChar) then
    match rsplitChar ' ' cs with
    | none => none
    | some (nameLabels, valueCs) =>
      match splitOnceChar lbraceChar nameLabels with
      | none => none
      | some (nameCs, labelsCs0) =>
        let labelsCs := rstripChar rbraceChar labelsCs0
        let labels := (splitOnChar ',' labelsCs).foldl (fun acc lab =>
            match splitOnceChar '=' lab with
            | none => acc
            | some (k, v) =>
                dictInsert acc (String.mk (pyStripL k))
                  (String.mk (stripQuotes (pyStripL v)))) []
        match parseFloat? (String.mk valueCs) with
        | none => none
        | some q =>
            let name := String.mk nameCs
            some (name ++ "_" ++ pyDictRepr labels, ⟨name, labels, q⟩)
  else
    match pySplitWs cs with
    | n :: v :: _ =>
        match parseFloat? (String.mk v) with
        | none => none
        | some q =>
            let name := String.mk n
            some (name, ⟨name, [], q⟩)
    | _ => none

/-- The whole for loop of _parse_prometheus_metrics over an already split
line list: malformed lines contribute nothing, parsed lines are inserted
into the metrics dict. -/
def parseLines (lines : List String) : List (String × Sample) :=
  lines.foldl (fun acc l =>
    match lineSample l with
    | some kv => dictInsert acc kv.1 kv.2
    | none => acc) []

/-- MetricsCollector._parse_prometheus_metrics: split the blob on newlines and
run the per-line loop. -/
def parse_prometheus_metrics (text : String) : List (String × Sample) :=
  parseLines (splitOnChar '\n' text.toList |>.map String.mk)

/-! ### CounterToGaugeConverter -/

/-- State of CounterToGaugeConverter: per metric key the previous
(value, timestamp) pair. -/
abbrev ConvState := List (String × (ℚ × ℚ))

/-- CounterToGaugeConverter.convert: returns the rate and the updated state.
Every call stores (value, timestamp); a rate is returned only when the key was
known and the time delta is strictly positive. -/
def convert (st : ConvState) (metricName : String) (value timestamp : ℚ) :
    Option ℚ × ConvState :=
  match dictLookup st metricName with
  | some pv =>
      let timeDelta := timestamp - pv.2
      if 0 < timeDelta then
        (some ((value - pv.1) / timeDelta), dictInsert st metricName (value, timestamp))
      else
        (none, dictInsert st metricName (value, timestamp))
  | none => (none, dictInsert st metricName (value, timestamp))

/-! ### calculate_stats -/

/-- calculate_stats: avg, min, max and sample standard deviation over a value
list, as the insertion-ordered item list of the returned dict.  The empty list
yields the empty dict; a single value has standard deviation zero. -/
noncomputable def calculate_stats (values : List ℚ) : List (String × ℝ) :=
  match values with
  | [] => []
  | v :: vs =>
      let n : ℕ := (v :: vs).length
      let avg : ℚ := (v :: vs).sum / (n : ℚ)
      let minVal : ℚ := vs.foldl min v
      let maxVal : ℚ := vs.foldl max v
      let stddev : ℝ :=
        if 1 < n then
          Real.sqrt ((((((v :: vs).map (fun x => (x - avg) ^ 2)).sum / ((n : ℚ) - 1)) : ℚ) : ℝ))
        else 0
      [("avg", (avg : ℝ)), ("min", (minVal : ℝ)), ("max", (maxVal : ℝ)), ("stddev", stddev)]

/-! ### Counter tables and aggregation-pattern tables of MetricsCollector -/

def CADVISOR_COUNTER_METRICS : List String :=
  ["container_cpu_usage_seconds_total",
   "container_cpu_user_seconds_total",
   "container_cpu_system_seconds_total",
   "container_network_receive_bytes_total",
   "container_network_transmit_bytes_total",
   "container_network_receive_packets_total",
   "container_network_transmit_packets_total",
   "container_network_receive_errors_total",
   "container_network_transmit_errors_total",
   "container_network_receive_packets_dropped_total",
   "container_network_transmit_packets_dropped_total",
   "container_fs_reads_total",
   "container_fs_writes_total",
   "container_fs_read_seconds_total",
   "container_fs_write_seconds_total",
   "container_fs_reads_bytes_total",
   "container_fs_writes_bytes_total",
   "container_blkio_device_usage_total"]

def NODE_EXPORTER_COUNTER_METRICS : List String :=
  ["node_cpu_seconds_total",
   "node_disk_read_bytes_total",
   "node_disk_written_bytes_total",
   "node_disk_reads_completed_total",
   "node_disk_writes_completed_total",
   "node_disk_read_time_seconds_total",
   "node_disk_write_time_seconds_total",
   "node_network_receive_bytes_total",
   "node_network_transmit_bytes_total",
   "node_network_receive_packets_total",
   "node_network_transmit_packets_total",
   "node_network_receive_errs_total",
   "node_network_transmit_errs_total",
   "node_network_receive_drop_total",
   "node_network_transmit_drop_total",
   "node_context_switches_total",
   "node_intr_total",
   "node_forks_total",
   "node_softnet_dropped_total",
   "node_softnet_processed_total",
   "node_vmstat_pgfault",
   "node_vmstat_pgmajfault",
   "node_vmstat_pgpgin",
   "node_vmstat_pgpgout"]

/-- _is_counter_metric: any-startswith over the source counter table. -/
def isCounter (metricName : String) (counters : List String) : Bool :=
  counters.any (fun c => c.isPrefixOf metricName)

/-- One aggregation regex of the source, all of which have the shape
(?P<base>PRE[a-zA-Z0-9_]+)_(escaped lbrace)(dot-star)LIT(dot-star)(escaped rbrace)
where PRE is basePre, LIT is innerLit (the empty string for the two patterns
with a bare dot-star between the braces, which denote the same language). -/
structure AggPattern where
  basePre : String
  innerLit : String

/-- Word character class [a-zA-Z0-9_] of the aggregation regexes. -/
def wordChar (c : Char) : Bool := c.isAlpha || c.isDigit || c = '_'

/-- Prefix match of (dot-star)(escaped rbrace): a closing brace is reached
before any newline (dot does not match newline). -/
def dotStarBrace : List Char → Bool
  | [] => false
  | c :: cs => if c = rbraceChar then true else if c = '\n' then false else dotStarBrace cs

/-- Prefix match of (dot-star)LIT(dot-star)(escaped rbrace): the literal occurs
with no newline before it, and a closing brace follows with no newline
between. -/
def litThenBrace (lit : List Char) : List Char → Bool
  | [] => false
  | c :: cs =>
      (List.isPrefixOf lit (c :: cs) && dotStarBrace (List.drop lit.length (c :: cs))) ||
      (decide (c ≠ '\n') && litThenBrace lit cs)

/-- re.match of one aggregation pattern against a key, returning the base
group on success.  Because every character of the base group and the
underscore before the brace are word characters while the opening brace is
not, the backtracking split of the regex is unique: the base group is the
pattern literal plus the maximal word-character run minus its final
underscore, and the opening brace must follow immediately. -/
def matchAggPattern (p : AggPattern) (key : String) : Option String :=
  if String.isPrefixOf (AggPattern.basePre p) key then
    let r := List.drop (AggPattern.basePre p).length key.toList
    let w := r.takeWhile wordChar
    let rest := r.dropWhile wordChar
    match rest with
    | [] => none
    | c :: tail =>
        if c = lbraceChar ∧ 2 ≤ w.length ∧ w.getLast? = some '_' ∧
            litThenBrace (AggPattern.innerLit p).toList tail then
          some (AggPattern.basePre p ++ String.mk w.dropLast)
        else none
  else none

/-- _should_aggregate_metric: first matching pattern wins and yields the base
name; no match yields (false, none).  (Every source pattern has a base group,
so the IndexError fallback of the source is unreachable.) -/
def shouldAggregateMetric (key : String) : List AggPattern → Bool × Option String
  | [] => (false, none)
  | p :: rest =>
      match matchAggPattern p key with
      | some base => (true, some base)
      | none => shouldAggregateMetric key rest

def CADVISOR_AGGREGATION_PATTERNS : List AggPattern :=
  [⟨"container_cpu_", "cpu="⟩,
   ⟨"container_network_", "interface="⟩,
   ⟨"container_fs_", "device="⟩,
   ⟨"container_blkio_", "device="⟩]

def NODE_EXPORTER_AGGREGATION_PATTERNS : List AggPattern :=
  [⟨"node_cpu_", "cpu="⟩,
   ⟨"node_network_", "device="⟩,
   ⟨"node_disk_", "device="⟩,
   ⟨"node_hwmon_", ""⟩,
   ⟨"node_thermal_", "zone="⟩,
   ⟨"node_cooling_", ""⟩]

/-! ### The two pull collectors -/

/-- Label filter of collect_cadvisor_metrics: a sample is dropped when the
given label is present and differs from the target container name. -/
def labelMismatch (labels : List (String × String)) (labName want : String) : Bool :=
  match dictLookup labels labName with
  | some v => decide (v ≠ want)
  | none => false

/-- defaultdict(list) accumulation: append the value to the base name group,
creating the group at the end on first use. -/
def groupAppend (groups : List (String × List ℚ)) (base : String) (v : ℚ) :
    List (String × List ℚ) :=
  match groups with
  | [] => [(base, [v])]
  | (b, vs) :: rest =>
      if b = base then (b, vs ++ [v]) :: rest else (b, vs) :: groupAppend rest base v

/-- Loop body of collect_cadvisor_metrics over one parsed sample: filter by
container labels, rate-convert counters (dropping first observations),
classify for aggregation, and accumulate into the per-cycle group map or the
raw-value dict. -/
def cadvisorFold (containerName : String) (timestamp : ℚ)
    (acc : ConvState × List (String × ℚ) × List (String × List ℚ))
    (item : String × Sample) :
    ConvState × List (String × ℚ) × List (String × List ℚ) :=
  let (st, rawValues, aggGroups) := acc
  let (key, md) := item
  if labelMismatch md.labels "name" containerName then (st, rawValues, aggGroups)
  else if labelMismatch md.labels "container" containerName then (st, rawValues, aggGroups)
  else
    let agg := shouldAggregateMetric key CADVISOR_AGGREGATION_PATTERNS
    if isCounter md.name CADVISOR_COUNTER_METRICS then
      match convert st ("cAdvisor_" ++ containerName ++ "_" ++ key) md.value timestamp with
      | (none, st') => (st', rawValues, aggGroups)
      | (some g, st') =>
          if agg.1 ∧ agg.2.getD "" ≠ "" then
            (st', rawValues, groupAppend aggGroups (agg.2.getD "") g)
          else (st', dictInsert rawValues (md.name ++ "_rate") g, aggGroups)
    else
      if agg.1 ∧ agg.2.getD "" ≠ "" then
        (st, rawValues, groupAppend aggGroups (agg.2.getD "") md.value)
      else (st, dictInsert rawValues md.name md.value, aggGroups)

/-- Result assembly shared by both collectors: expand every aggregation group
through calculate_stats into prefixed stat keys, then add the prefixed raw
values. -/
noncomputable def buildResult (pre : String) (rawValues : List (String × ℚ))
    (aggGroups : List (String × List ℚ)) : List (String × ℝ) :=
  let aggPart := aggGroups.foldl
      (fun res bg => (calculate_stats bg.2).foldl
          (fun res2 sv => dictInsert res2 (pre ++ bg.1 ++ "_" ++ sv.1) sv.2) res) []
  rawValues.foldl (fun res kv => dictInsert res (pre ++ kv.1) ((kv.2 : ℚ) : ℝ)) aggPart

/-- collect_cadvisor_metrics.  The bounded-timeout HTTP fetch (requests.get
plus raise_for_status) is modelled by the Except argument; any
requests.RequestException is caught and yields the empty record with the
converter state untouched.  On success the body is total, so nothing else can
raise to the caller. -/
noncomputable def collect_cadvisor_metrics (fetched : Except Unit String)
    (containerName : String) (timestamp : ℚ) (st : ConvState) :
    List (String × ℝ) × ConvState :=
  match fetched with
  | .error _ => ([], st)
  | .ok text =>
      let raw := parse_prometheus_metrics text
      let res := raw.foldl (cadvisorFold containerName timestamp) (st, [], [])
      (buildResult "cAdvisor_" res.2.1 res.2.2, res.1)

/-- Loop body of collect_node_exporter_metrics over one parsed sample: no
container filter, node-exporter counter table and patterns, NodeExporter
converter keys. -/
def nodeExporterFold (timestamp : ℚ)
    (acc : ConvState × List (String × ℚ) × List (String × List ℚ))
    (item : String × Sample) :
    ConvState × List (String × ℚ) × List (String × List ℚ) :=
  let (st, rawValues, aggGroups) := acc
  let (key, md) := item
  let agg := shouldAggregateMetric key NODE_EXPORTER_AGGREGATION_PATTERNS
  if isCounter md.name NODE_EXPORTER_COUNTER_METRICS then
    match convert st ("NodeExporter_" ++ key) md.value timestamp with
    | (none, st') => (st', rawValues, aggGroups)
    | (some g, st') =>
        if agg.1 ∧ agg.2.getD "" ≠ "" then
          (st', rawValues, groupAppend aggGroups (agg.2.getD "") g)
        else (st', dictInsert rawValues (md.name ++ "_rate") g, aggGroups)
  else
    if agg.1 ∧ agg.2.getD "" ≠ "" then
      (st, rawValues, groupAppend aggGroups (agg.2.getD "") md.value)
    else (st, dictInsert rawValues md.name md.value, aggGroups)

/-- collect_node_exporter_metrics, with the transport modelled as in
collect_cadvisor_metrics. -/
noncomputable def collect_node_exporter_metrics (fetched : Except Unit String)
    (timestamp : ℚ) (st : ConvState) : List (String × ℝ) × ConvState :=
  match fetched with
  | .error _ => ([], st)
  | .ok text =>
      let raw := parse_prometheus_metrics text
      let res := raw.foldl (nodeExporterFold timestamp) (st, [], [])
      (buildResult "NodeExporter_" res.2.1 res.2.2, res.1)

/-! ### Structured Python values (decoded JSON, nested metric records) -/

/-- A decoded Python value as produced by json.loads: number, string, boolean,
null, list, or string-keyed dict. -/
inductive PyVal where
  | num (q : ℚ)
  | str (s : String)
  | bool (b : Bool)
  | null
  | list (elems : List PyVal)
  | dict (entries : List (String × PyVal))

/-! ### The push cache (MetricsCollector srsRAN message handling) -/

/-- Substring test used by the Python expression (needle in s) on strings. -/
def listInfix (needle : List Char) : List Char → Bool
  | [] => needle.isEmpty
  | c :: cs => List.isPrefixOf needle (c :: cs) || listInfix needle cs

/-- Model of the Python expression (needle in data) on a decoded value:
key membership for a dict, element equality for a list, substring test for a
string; none models the TypeError raised on a number, boolean or None. -/
def pyContains (needle : String) : PyVal → Option Bool
  | .dict entries => some (entries.any (fun kv => kv.1 == needle))
  | .list elems => some (elems.any (fun e =>
      match e with
      | .str s => s == needle
      | _ => false))
  | .str s => some (listInfix needle.toList s.toList)
  | _ => none

/-- Latest-record cache _latest_srsran_metrics: node name to decoded value. -/
abbrev SrsranCache := List (String × PyVal)

/-- _on_srsran_message.  The json.loads decoding of the raw text is modelled
by the Option argument (none = JSONDecodeError, caught and ignored).  The
returned flag is true when the handler raises: the membership test
(cmd in data) raises TypeError on a decoded number, boolean or null, and that
exception is not caught by the except clause, which names JSONDecodeError
only. -/
def on_srsran_message (cache : SrsranCache) (nodeName : String)
    (message : Option PyVal) : SrsranCache × Bool :=
  match message with
  | none => (cache, false)
  | some data =>
      match pyContains "cmd" data with
      | none => (cache, true)
      | some true => (cache, false)
      | some false => (dictInsert cache nodeName data, false)

/-- Model of the Python attribute call data.copy(): defined for dicts and
lists, none models the AttributeError raised on any other cached value. -/
def pyCopy : PyVal → Option PyVal
  | .dict entries => some (.dict entries)
  | .list elems => some (.list elems)
  | _ => none

/-- get_srsran_metrics: non-blocking read of the latest cached record,
defaulting to the empty dict, then copied. -/
def get_srsran_metrics (cache : SrsranCache) (nodeName : String) : Option PyVal :=
  pyCopy ((dictLookup cache nodeName).getD (.dict []))

/-! ### DataWriter -/

/-- One line of a per-entity CSV file: the header, or a data row holding for
each schema column the looked-up value (none models the empty restval cell of
csv.DictWriter for a missing key; extra keys are ignored by construction
since a row reads schema columns only, matching extrasaction ignore). -/
inductive CsvLine where
  | header (cols : List String)
  | row (cells : List (Option PyVal))

mutual

/-- _flatten_dict, written as the source recursion: dict values recurse with
the joined key, list items are indexed by position and recurse when they are
dicts, scalars become single items; each recursive _flatten_dict call wraps
its item list in dict(), modelled by dictFromItems. -/
def flatten_dict (entries : List (String × PyVal)) (parentKey : String) :
    List (String × PyVal) :=
  dictFromItems (flattenItems entries parentKey)

def flattenItems : List (String × PyVal) → String → List (String × PyVal)
  | [], _ => []
  | (k, v) :: rest, parentKey =>
      let newKey := if parentKey = "" then k else parentKey ++ "_" ++ k
      (match v with
       | .dict e2 => flatten_dict e2 newKey
       | .list elems => flattenListItems newKey 0 elems
       | other => [(newKey, other)]) ++ flattenItems rest parentKey

def flattenListItems : String → Nat → List PyVal → List (String × PyVal)
  | _, _, [] => []
  | newKey, i, e :: rest =>
      (match e with
       | .dict e2 => flatten_dict e2 (newKey ++ "_" ++ toString i)
       | other => [(newKey ++ "_" ++ toString i, other)]) ++
      flattenListItems newKey (i + 1) rest

end

/-- Models the external datetime.fromtimestamp(t).isoformat() rendering; no
claim depends on its output, only on what key it is stored under. -/
def isoformat (t : ℚ) : String := "iso_" ++ toString t

/-- The flat record written for one sample: the flattened metrics dict with
the human-readable and unix timestamps inserted. -/
def flatWithTimestamps (metrics : List (String × PyVal)) (timestamp : ℚ) :
    List (String × PyVal) :=
  dictInsert
    (dictInsert (flatten_dict metrics "") "timestamp" (.str (isoformat timestamp)))
    "timestamp_unix" (.num timestamp)

/-- Column schema fixed at the first write: timestamp, timestamp_unix, then
every other observed key in sorted order. -/
def headerList (currentHeaders : Finset String) : List String :=
  ["timestamp", "timestamp_unix"] ++
    (Finset.sort (· ≤ ·)
      (currentHeaders.filter (fun h => h ∉ (["timestamp", "timestamp_unix"] : List String))))

/-- State of one DataWriter: the entities with an open file, the fieldnames of
each entity writer, the _headers_written sets, and the written file
contents. -/
structure WriterState where
  files : List String
  writers : List (String × List String)
  headersWritten : List (String × Finset String)
  contents : List (String × List CsvLine)

/-- DataWriter.__init__: no files, writers, header sets or contents. -/
def initWriter : WriterState := ⟨[], [], [], []⟩

/-- Append one line to an entity file. -/
def appendContent (contents : List (String × List CsvLine)) (node : String)
    (l : CsvLine) : List (String × List CsvLine) :=
  dictInsert contents node (((dictLookup contents node).getD []) ++ [l])

/-- DataWriter.write_sample: a no-op on an empty metrics dict; otherwise
flatten, add timestamps, lazily open the entity file, then either fix the
schema and write the header plus the row (first write: empty header set), or
append one row restricted to the fixed fieldnames, only growing the
diagnostic header set when new keys appear. -/
def write_sample (st : WriterState) (nodeName : String) (timestamp : ℚ)
    (metrics : List (String × PyVal)) : WriterState :=
  if metrics.isEmpty then st
  else
    let flat := flatWithTimestamps metrics timestamp
    let files' := if nodeName ∈ st.files then st.files else st.files ++ [nodeName]
    let headersW :=
      if nodeName ∈ st.files then st.headersWritten
      else dictInsert st.headersWritten nodeName ∅
    let contents0 :=
      if nodeName ∈ st.files then st.contents else dictInsert st.contents nodeName []
    let currentHeaders : Finset String := (flat.map Prod.fst).toFinset
    let prevHeaders : Finset String := (dictLookup headersW nodeName).getD ∅
    if prevHeaders = ∅ then
      let headers := headerList currentHeaders
      { files := files'
        writers := dictInsert st.writers nodeName headers
        headersWritten := dictInsert headersW nodeName currentHeaders
        contents :=
          appendContent
            (appendContent contents0 nodeName (CsvLine.header headers)) nodeName
            (CsvLine.row (headers.map (fun h => dictLookup flat h))) }
    else
      let headersW' :=
        if currentHeaders \ prevHeaders ≠ ∅ then
          dictInsert headersW nodeName (prevHeaders ∪ currentHeaders)
        else headersW
      let fieldnames := (dictLookup st.writers nodeName).getD []
      { files := files'
        writers := st.writers
        headersWritten := headersW'
        contents :=
          appendContent contents0 nodeName
            (CsvLine.row (fieldnames.map (fun h => dictLookup flat h))) }

/-- A concrete scraped blob with three per-core samples of one gauge-type CPU
metric, all labelled with the target container name: the collection cycle the
aggregation claim describes. -/
def c1Text : String :=
  "container_cpu_load_average_10s\x7bcpu=\"0\",name=\"srscu0\"\x7d 1.0\n" ++
  "container_cpu_load_average_10s\x7bcpu=\"1\",name=\"srscu0\"\x7d 2.0\n" ++
  "container_cpu_load_average_10s\x7bcpu=\"2\",name=\"srscu0\"\x7d 3.0"

/-! ### Helper lemmas about Python-dict association lists -/

theorem dictLookup_dictInsert_self {α : Type} (d : List (String × α)) (k : String) (v : α) :
    dictLookup (dictInsert d k v) k = some v := by
  induction d with
  | nil => simp [dictInsert, dictLookup]
  | cons hd tl ih =>
      obtain ⟨k', v'⟩ := hd
      by_cases h : k' = k
      · simp [dictInsert, dictLookup, h]
      · simp [dictInsert, dictLookup, h, ih]

theorem mem_keys_dictInsert {α : Type} (d : List (String × α)) (k : String) (v : α) :
    k ∈ (dictInsert d k v).map Prod.fst := by
  induction d with
  | nil => simp [dictInsert]
  | cons hd tl ih =>
      obtain ⟨k', v'⟩ := hd
      by_cases h : k' = k
      · simp [dictInsert, h]
      · simp only [dictInsert, if_neg h, List.map_cons, List.mem_cons]
        exact Or.inr ih

/-! ### Claim C2: rate conversion at a non-positive time delta -/

/-- C2, counterexample: with stored state (1, 10) for key k, the call
convert k 5 10 (equal timestamps) returns absent but OVERWRITES the stored
state with (5, 10); consequently a third call convert k 7 11 yields rate 2,
not the rate 6 it would yield had the second call never happened.  This
refutes the claim that the stored state is left unchanged. -/
theorem c2_nonpositive_delta_overwrites_state :
    (convert [("k", ((1 : ℚ), (10 : ℚ)))] "k" 5 10).1 = none ∧
    (convert [("k", ((1 : ℚ), (10 : ℚ)))] "k" 5 10).2 = [("k", ((5 : ℚ), (10 : ℚ)))] ∧
    [("k", ((5 : ℚ), (10 : ℚ)))] ≠ [("k", ((1 : ℚ), (10 : ℚ)))] ∧
    (convert (convert [("k", ((1 : ℚ), (10 : ℚ)))] "k" 5 10).2 "k" 7 11).1 = some 2 ∧
    (convert [("k", ((1 : ℚ), (10 : ℚ)))] "k" 7 11).1 = some 6 := by
  with_unfolding_all decide

/-- C2 (amended): for every metric key with stored rate state (v1, t1),
convert with t2 le t1 returns absent but overwrites the stored state with
(v2, t2); a subsequent call therefore computes its rate relative to (v2, t2),
not (v1, t1). -/
theorem c2_nonpositive_delta_returns_none (st : ConvState) (key : String)
    (v1 t1 v2 t2 : ℚ) (hst : dictLookup st key = some (v1, t1)) (h : t2 ≤ t1) :
    (convert st key v2 t2).1 = none ∧
    (convert st key v2 t2).2 = dictInsert st key (v2, t2) := by
  have hneg : ¬ (0 < t2 - t1) := by linarith
  unfold convert
  rw [hst]
  simp [hneg]

/-- Witness for C2 (amended) at the concrete state of the counterexample. -/
theorem c2_nonpositive_delta_returns_none_witness :
    (convert [("k", ((1 : ℚ), (10 : ℚ)))] "k" 5 10).1 = none ∧
    (convert [("k", ((1 : ℚ), (10 : ℚ)))] "k" 5 10).2 =
      dictInsert [("k", ((1 : ℚ), (10 : ℚ)))] "k" (5, 10) :=
  c2_nonpositive_delta_returns_none [("k", ((1 : ℚ), (10 : ℚ)))] "k" 1 10 5 10
    (by with_unfolding_all decide) (by norm_num)

/-! ### Claim C3: first observation stores, second observation yields the rate -/

/-- C3: for every counter key not previously seen, the first convert call
returns absent and stores (v1, t1); a second call with t2 greater than t1
returns exactly (v2 - v1) / (t2 - t1) and updates the stored state to
(v2, t2). -/
theorem c3_first_none_then_exact_rate (st : ConvState) (key : String)
    (v1 t1 v2 t2 : ℚ) (h0 : dictLookup st key = none) (h : t1 < t2) :
    (convert st key v1 t1).1 = none ∧
    (convert st key v1 t1).2 = dictInsert st key (v1, t1) ∧
    (convert (convert st key v1 t1).2 key v2 t2).1 = some ((v2 - v1) / (t2 - t1)) ∧
    (convert (convert st key v1 t1).2 key v2 t2).2 =
      dictInsert (dictInsert st key (v1, t1)) key (v2, t2) := by
  have h1 : convert st key v1 t1 = (none, dictInsert st key (v1, t1)) := by
    unfold convert
    rw [h0]
  have h2 : dictLookup (dictInsert st key (v1, t1)) key = some (v1, t1) :=
    dictLookup_dictInsert_self st key (v1, t1)
  have hpos : 0 < t2 - t1 := by linarith
  refine ⟨by rw [h1], by rw [h1], ?_, ?_⟩
  · rw [h1]
    unfold convert
    rw [h2]
    simp [hpos]
  · rw [h1]
    unfold convert
    rw [h2]
    simp [hpos]

/-- Witness for C3 at a fresh key: rate (3 - 1) / (11 - 10) = 2. -/
theorem c3_first_none_then_exact_rate_witness :
    (convert [] "k" 1 10).1 = none ∧
    (convert [] "k" 1 10).2 = dictInsert [] "k" (1, 10) ∧
    (convert (convert [] "k" 1 10).2 "k" 3 11).1 = some ((3 - 1) / (11 - 10)) ∧
    (convert (convert [] "k" 1 10).2 "k" 3 11).2 =
      dictInsert (dictInsert [] "k" (1, 10)) "k" (3, 11) :=
  c3_first_none_then_exact_rate [] "k" 1 10 3 11 (by with_unfolding_all decide) (by norm_num)

/-! ### Claim C4: parsing well-formed labelled and unlabelled lines -/

/-- C4: parsing the single labelled line foo(lbrace)a="1",b="2"(rbrace) 3.5
yields exactly one sample named foo with labels a to 1 and b to 2 (quotes
stripped) and value 3.5, keyed by the name plus the rendered label dict; and
an unlabelled line is name value. -/
theorem c4_wellformed_line_parses :
    parse_prometheus_metrics "foo\x7ba=\"1\",b=\"2\"\x7d 3.5" =
      [("foo_" ++ pyDictRepr [("a", "1"), ("b", "2")],
        { name := "foo", labels := [("a", "1"), ("b", "2")], value := 7/2 })] ∧
    parse_prometheus_metrics "bar 2.5" =
      [("bar", { name := "bar", labels := [], value := 5/2 })] := by
  with_unfolding_all decide

/-! ### Claim C5: malformed lines are skipped individually -/

/-- C5, counterexample: the line foo(lbrace)a="1" 3.5 has unbalanced braces,
yet it is not skipped: it parses to a sample named foo with label a to 1 and
value 3.5.  This refutes the claim that every line with unbalanced braces is
skipped and contributes no sample. -/
theorem c5_unbalanced_brace_line_parses :
    parse_prometheus_metrics "foo\x7ba=\"1\" 3.5" =
      [("foo_" ++ pyDictRepr [("a", "1")],
        { name := "foo", labels := [("a", "1")], value := 7/2 })] := by
  with_unfolding_all decide

/-- C5 (amended): a line that fails numeric parsing or does not split into
either accepted line shape is skipped individually, without raising (the
per-line function is total) and contributes no sample, while all other lines
of the blob are still parsed; a line with unbalanced braces, however, may
still parse when it splits into name, label block and numeric value.  The
first conjunct states skip independence for an arbitrary blob around an
arbitrary rejected line; the others exhibit rejected shapes: a non-numeric
value, and a brace-containing line with no space. -/
theorem c5_skipped_lines_leave_parse_unchanged (pre post : List String)
    (bad : String) (h : lineSample bad = none) :
    parseLines (pre ++ bad :: post) = parseLines (pre ++ post) ∧
    lineSample "foo 3.5x" = none ∧
    lineSample "foo\x7ba=\"1\"" = none := by
  refine ⟨?_, by decide, by decide⟩
  unfold parseLines
  rw [List.foldl_append, List.foldl_append, List.foldl_cons]
  simp only [h]

/-- Witness for C5 (amended): a junk line between two good lines changes
nothing. -/
theorem c5_skipped_lines_leave_parse_unchanged_witness :
    parseLines (["foo 1.0"] ++ "junk" :: ["bar 2.0"]) =
      parseLines (["foo 1.0"] ++ ["bar 2.0"]) ∧
    lineSample "foo 3.5x" = none ∧
    lineSample "foo\x7ba=\"1\"" = none :=
  c5_skipped_lines_leave_parse_unchanged ["foo 1.0"] ["bar 2.0"] "junk" (by decide)

/-! ### Claim C6: calculate_stats -/

/-- C6: stats of the empty sequence yields no output; stats of a singleton is
avg = min = max = the value with stddev 0; stats of 2, 4, 6 is avg 4, min 2,
max 6 and sample standard deviation 2 (sum of squared deviations divided by
n - 1, square-rooted); and every nonempty input yields exactly the four keys
avg, min, max, stddev. -/
theorem c6_stats_avg_min_max_sample_stddev :
    calculate_stats [] = [] ∧
    (∀ x : ℚ, calculate_stats [x] =
      [("avg", (x : ℝ)), ("min", (x : ℝ)), ("max", (x : ℝ)), ("stddev", 0)]) ∧
    calculate_stats [2, 4, 6] = [("avg", 4), ("min", 2), ("max", 6), ("stddev", 2)] ∧
    (∀ l : List ℚ, l ≠ [] →
      (calculate_stats l).map Prod.fst = ["avg", "min", "max", "stddev"]) := by
  refine ⟨rfl, ?_, ?_, ?_⟩
  · intro x
    simp [calculate_stats]
  · have h2 : Real.sqrt 4 = 2 := by
      rw [show (4 : ℝ) = 2 ^ 2 by norm_num]
      exact Real.sqrt_sq (by norm_num)
    simp only [calculate_stats]
    norm_num [h2]
  · intro l hl
    match l with
    | [] => exact absurd rfl hl
    | v :: vs => rfl

/-- Witness for C6 at the inputs named by the claim with a hypothesis
discharged: the singleton 5 and the nonempty list [1]. -/
theorem c6_stats_avg_min_max_sample_stddev_witness :
    calculate_stats [5] =
      [("avg", ((5 : ℚ) : ℝ)), ("min", ((5 : ℚ) : ℝ)), ("max", ((5 : ℚ) : ℝ)), ("stddev", 0)] ∧
    (calculate_stats [(1 : ℚ)]).map Prod.fst = ["avg", "min", "max", "stddev"] :=
  ⟨c6_stats_avg_min_max_sample_stddev.2.1 5,
   c6_stats_avg_min_max_sample_stddev.2.2.2 [1] (by simp)⟩

/-! ### Claim C1: per-core samples and the aggregation classifier -/

set_option maxRecDepth 100000 in
set_option maxHeartbeats 1000000 in
/-- C1: the claim asserts that three per-core CPU samples sharing a base name
aggregate into exactly the four stat keys with no raw per-core key.  The code
does not do this: sample keys render labels as a Python dict repr
(single-quoted keys, colon separators), while every aggregation regex demands
the raw exposition spelling label=... inside the braces, so no pattern ever
matches a real key and the group is emitted raw (one key, last value wins,
since the raw dict is keyed by bare metric name).  First conjunct: the full
collector on the three-sample cycle emits exactly the one raw key and no stat
keys.  Second: the classifier rejects the dict-repr key.  Third: the same
classifier accepts the raw-exposition spelling of that key, locating the slip
in the key rendering the patterns were written against. -/
theorem c1_per_core_samples_are_not_aggregated :
    ((collect_cadvisor_metrics (Except.ok c1Text) "srscu0" 100 []).1).map Prod.fst =
      ["cAdvisor_container_cpu_load_average_10s"] ∧
    shouldAggregateMetric
      ("container_cpu_load_average_10s_" ++ pyDictRepr [("cpu", "0"), ("name", "srscu0")])
      CADVISOR_AGGREGATION_PATTERNS = (false, none) ∧
    shouldAggregateMetric "container_cpu_load_average_10s_\x7bcpu=\"0\"\x7d"
      CADVISOR_AGGREGATION_PATTERNS = (true, some "container_cpu_load_average_10s") := by
  with_unfolding_all decide

/-! ### Claim C9: transport failure yields the empty record, never raises -/

/-- C9: for both pull collectors, a transport failure of the bounded-timeout
fetch makes the invocation return the empty record with the converter state
untouched; the collectors are total functions, so nothing is raised to the
caller and the collection cycle continues. -/
theorem c9_transport_failure_yields_empty_record :
    (∀ (container : String) (t : ℚ) (st : ConvState),
        collect_cadvisor_metrics (Except.error ()) container t st = ([], st)) ∧
    (∀ (t : ℚ) (st : ConvState),
        collect_node_exporter_metrics (Except.error ()) t st = ([], st)) :=
  ⟨fun _ _ _ => rfl, fun _ _ => rfl⟩

/-! ### Claim C7: the column schema is fixed at the first successful write -/

/-- C7: first part — on the first successful write for an entity (entity not
yet opened, nonempty record) the file gains the entity, the writer fieldnames
become timestamp, timestamp_unix, then the remaining observed flat keys in
sorted order (headerList of the observed key set), the header-written set
becomes nonempty, and the file holds exactly the header line and one row read
off the schema columns.  Second part — on every subsequent write (entity open,
header set nonempty, nonempty record) the fieldnames and the file set are
unchanged (so a new key is never added as a column), the header set stays
nonempty (so no second header is ever written), and the file gains exactly
one row whose cells are looked up at the OLD fixed schema columns only, so a
key outside that schema is absent from every subsequent row. -/
theorem c7_schema_fixed_at_first_write :
    (∀ (st : WriterState) (node : String) (t : ℚ) (m : List (String × PyVal)),
      node ∉ st.files → m ≠ [] →
      (write_sample st node t m).files = st.files ++ [node] ∧
      dictLookup (write_sample st node t m).writers node =
        some (headerList (((flatWithTimestamps m t).map Prod.fst).toFinset)) ∧
      (dictLookup (write_sample st node t m).headersWritten node).getD ∅ ≠ ∅ ∧
      dictLookup (write_sample st node t m).contents node =
        some [CsvLine.header (headerList (((flatWithTimestamps m t).map Prod.fst).toFinset)),
          CsvLine.row ((headerList (((flatWithTimestamps m t).map Prod.fst).toFinset)).map
            (fun h => dictLookup (flatWithTimestamps m t) h))]) ∧
    (∀ (st : WriterState) (node : String) (t : ℚ) (m : List (String × PyVal)),
      node ∈ st.files → (dictLookup st.headersWritten node).getD ∅ ≠ ∅ → m ≠ [] →
      (write_sample st node t m).writers = st.writers ∧
      (write_sample st node t m).files = st.files ∧
      (dictLookup (write_sample st node t m).headersWritten node).getD ∅ ≠ ∅ ∧
      dictLookup (write_sample st node t m).contents node =
        some (((dictLookup st.contents node).getD []) ++
          [CsvLine.row (((dictLookup st.writers node).getD []).map
            (fun h => dictLookup (flatWithTimestamps m t) h))])) := by
  constructor
  · intro st node t m h1 h2
    have hne : m.isEmpty = false := by
      cases m with
      | nil => exact absurd rfl h2
      | cons a l => rfl
    have hmem : "timestamp_unix" ∈ (flatWithTimestamps m t).map Prod.fst := by
      unfold flatWithTimestamps
      exact mem_keys_dictInsert _ _ _
    have hcur : (((flatWithTimestamps m t).map Prod.fst).toFinset : Finset String) ≠ ∅ :=
      Finset.ne_empty_of_mem (List.mem_toFinset.mpr hmem)
    unfold write_sample
    rw [hne]
    simp only [Bool.false_eq_true, if_false, if_neg h1, dictLookup_dictInsert_self,
      Option.getD_some, if_true]
    refine ⟨trivial, trivial, hcur, ?_⟩
    simp [appendContent, dictLookup_dictInsert_self]
  · intro st node t m h1 hprev h2
    have hne : m.isEmpty = false := by
      cases m with
      | nil => exact absurd rfl h2
      | cons a l => rfl
    unfold write_sample
    rw [hne]
    simp only [Bool.false_eq_true, if_false, if_pos h1]
    rw [if_neg hprev]
    refine ⟨rfl, rfl, ?_, ?_⟩
    · by_cases hnew :
        ((flatWithTimestamps m t).map Prod.fst).toFinset \
          ((dictLookup st.headersWritten node).getD ∅) ≠ (∅ : Finset String)
      · rw [if_pos hnew, dictLookup_dictInsert_self]
        simp only [Option.getD_some]
        intro hun
        rcases Finset.union_eq_empty.mp hun with ⟨hp, _⟩
        exact hprev hp
      · rw [if_neg hnew]
        exact hprev
    · simp [appendContent, dictLookup_dictInsert_self]

/-- Witness for C7: a first write for entity n fixes the schema, and a second
write with a record carrying the new key c leaves the fieldnames unchanged
and appends one row read off the old schema. -/
theorem c7_schema_fixed_at_first_write_witness :
    ((write_sample initWriter "n" 0 [("b", PyVal.num 1)]).files = initWriter.files ++ ["n"] ∧
     dictLookup (write_sample initWriter "n" 0 [("b", PyVal.num 1)]).writers "n" =
       some (headerList (((flatWithTimestamps [("b", PyVal.num 1)] 0).map Prod.fst).toFinset)) ∧
     (dictLookup (write_sample initWriter "n" 0 [("b", PyVal.num 1)]).headersWritten "n").getD ∅ ≠ ∅ ∧
     dictLookup (write_sample initWriter "n" 0 [("b", PyVal.num 1)]).contents "n" =
       some [CsvLine.header (headerList (((flatWithTimestamps [("b", PyVal.num 1)] 0).map Prod.fst).toFinset)),
         CsvLine.row ((headerList (((flatWithTimestamps [("b", PyVal.num 1)] 0).map Prod.fst).toFinset)).map
           (fun h => dictLookup (flatWithTimestamps [("b", PyVal.num 1)] 0) h))]) ∧
    ((write_sample (write_sample initWriter "n" 0 [("b", PyVal.num 1)]) "n" 1
        [("b", PyVal.num 2), ("c", PyVal.num 3)]).writers =
      (write_sample initWriter "n" 0 [("b", PyVal.num 1)]).writers ∧
     (write_sample (write_sample initWriter "n" 0 [("b", PyVal.num 1)]) "n" 1
        [("b", PyVal.num 2), ("c", PyVal.num 3)]).files =
      (write_sample initWriter "n" 0 [("b", PyVal.num 1)]).files ∧
     (dictLookup (write_sample (write_sample initWriter "n" 0 [("b", PyVal.num 1)]) "n" 1
        [("b", PyVal.num 2), ("c", PyVal.num 3)]).headersWritten "n").getD ∅ ≠ ∅ ∧
     dictLookup (write_sample (write_sample initWriter "n" 0 [("b", PyVal.num 1)]) "n" 1
        [("b", PyVal.num 2), ("c", PyVal.num 3)]).contents "n" =
       some (((dictLookup (write_sample initWriter "n" 0 [("b", PyVal.num 1)]).contents "n").getD []) ++
         [CsvLine.row (((dictLookup (write_sample initWriter "n" 0 [("b", PyVal.num 1)]).writers "n").getD []).map
           (fun h => dictLookup (flatWithTimestamps [("b", PyVal.num 2), ("c", PyVal.num 3)] 1) h))])) := by
  have hA := c7_schema_fixed_at_first_write.1 initWriter "n" 0 [("b", PyVal.num 1)]
    (by simp [initWriter]) (by simp)
  refine ⟨hA, ?_⟩
  exact c7_schema_fixed_at_first_write.2 (write_sample initWriter "n" 0 [("b", PyVal.num 1)])
    "n" 1 [("b", PyVal.num 2), ("c", PyVal.num 3)]
    (by rw [hA.1]; simp [initWriter]) hA.2.2.1 (by simp)

/-! ### Claim C8: the push cache -/

/-- C8, counterexample: the message 3.5 decodes successfully (to a number)
and contains no command-acknowledgment marker, yet it does not replace the
cached latest record: the membership test raises TypeError out of the handler
(flag true) and the cache is unchanged.  In addition, a cached top-level
string makes the read path raise AttributeError on .copy (modelled as none)
instead of returning the record.  This refutes the claim that every
successfully decoded message without the marker replaces the cache and that
get always returns the most recent cached record. -/
theorem c8_decoded_number_raises_from_handler :
    on_srsran_message [] "n" (some (PyVal.num (7 / 2))) = ([], true) ∧
    get_srsran_metrics [("n", PyVal.str "ack")] "n" = none := by
  exact ⟨rfl, rfl⟩

/-- C8 (amended): a decoded message whose top-level dict carries the cmd
marker key is discarded without touching the cache; a decoded dict without
it atomically replaces the cached record for the entity; decoded lists and
strings replace the cache exactly when the Python membership test for cmd
(element equality, respectively substring) fails, and are discarded
otherwise; a decoded number, boolean or null raises a type error out of the
handler, leaving the cache unchanged; an undecodable message is silently
discarded; and the non-blocking get returns the empty record when nothing is
cached, the cached record when it is a dict or list, and raises an attribute
error (none) when a bare string was cached. -/
theorem c8_push_cache_latest_record (cache : SrsranCache) (node : String) :
    (∀ entries, "cmd" ∈ entries.map Prod.fst →
      on_srsran_message cache node (some (PyVal.dict entries)) = (cache, false)) ∧
    (∀ entries, "cmd" ∉ entries.map Prod.fst →
      on_srsran_message cache node (some (PyVal.dict entries)) =
        (dictInsert cache node (PyVal.dict entries), false)) ∧
    (∀ elems, on_srsran_message cache node (some (PyVal.list elems)) =
      (if elems.any (fun e => match e with | .str s => s == "cmd" | _ => false) then cache
       else dictInsert cache node (PyVal.list elems), false)) ∧
    (∀ s, on_srsran_message cache node (some (PyVal.str s)) =
      (if listInfix "cmd".toList s.toList then cache
       else dictInsert cache node (PyVal.str s), false)) ∧
    (∀ q, on_srsran_message cache node (some (PyVal.num q)) = (cache, true)) ∧
    (∀ b, on_srsran_message cache node (some (PyVal.bool b)) = (cache, true)) ∧
    on_srsran_message cache node (some PyVal.null) = (cache, true) ∧
    on_srsran_message cache node none = (cache, false) ∧
    (∀ n, get_srsran_metrics [] n = some (PyVal.dict [])) ∧
    (∀ entries, dictLookup cache node = some (PyVal.dict entries) →
      get_srsran_metrics cache node = some (PyVal.dict entries)) ∧
    (∀ elems, dictLookup cache node = some (PyVal.list elems) →
      get_srsran_metrics cache node = some (PyVal.list elems)) ∧
    (∀ s, dictLookup cache node = some (PyVal.str s) →
      get_srsran_metrics cache node = none) := by
  refine ⟨?_, ?_, ?_, ?_, fun _ => rfl, fun _ => rfl, rfl, rfl, fun _ => rfl, ?_, ?_, ?_⟩
  · intro entries h
    have : entries.any (fun kv => kv.1 == "cmd") = true := by
      rcases List.mem_map.mp h with ⟨kv, hkv, hfst⟩
      exact List.any_eq_true.mpr ⟨kv, hkv, by simp [hfst]⟩
    simp [on_srsran_message, pyContains, this]
  · intro entries h
    have : entries.any (fun kv => kv.1 == "cmd") = false := by
      rw [List.any_eq_false]
      intro kv hkv
      simp only [beq_iff_eq]
      intro hfst
      exact h (List.mem_map.mpr ⟨kv, hkv, hfst⟩)
    simp [on_srsran_message, pyContains, this]
  · intro elems
    by_cases h : elems.any (fun e => match e with | .str s => s == "cmd" | _ => false) = true
    · simp [on_srsran_message, pyContains, h]
    · simp only [Bool.not_eq_true] at h
      simp [on_srsran_message, pyContains, h]
  · intro s
    unfold on_srsran_message pyContains
    cases h : listInfix "cmd".toList s.toList with
    | false =>
        simp only [String.toList] at h
        simp [h]
    | true =>
        simp only [String.toList] at h
        simp [h]
  · intro entries h
    simp [get_srsran_metrics, h, pyCopy]
  · intro elems h
    simp [get_srsran_metrics, h, pyCopy]
  · intro s h
    simp [get_srsran_metrics, h, pyCopy]

/-- Witness for C8 (amended): concrete messages through an empty cache, and
reads from concrete caches, with every hypothesis discharged. -/
theorem c8_push_cache_latest_record_witness :
    on_srsran_message [] "n" (some (PyVal.dict [("cmd", PyVal.null)])) = ([], false) ∧
    on_srsran_message [] "n" (some (PyVal.dict [("ue", PyVal.num 1)])) =
      (dictInsert [] "n" (PyVal.dict [("ue", PyVal.num 1)]), false) ∧
    get_srsran_metrics [("n", PyVal.dict [("ue", PyVal.num 1)])] "n" =
      some (PyVal.dict [("ue", PyVal.num 1)]) ∧
    get_srsran_metrics [("n", PyVal.str "ok")] "n" = none := by
  refine ⟨?_, ?_, ?_, ?_⟩
  · exact (c8_push_cache_latest_record [] "n").1 [("cmd", PyVal.null)] (by simp)
  · exact (c8_push_cache_latest_record [] "n").2.1 [("ue", PyVal.num 1)] (by simp)
  · exact (c8_push_cache_latest_record [("n", PyVal.dict [("ue", PyVal.num 1)])] "n").2.2.2.2.2.2.2.2.2.1
      [("ue", PyVal.num 1)] (by simp [dictLookup])
  · exact (c8_push_cache_latest_record [("n", PyVal.str "ok")] "n").2.2.2.2.2.2.2.2.2.2.2
      "ok" (by simp [dictLookup])

/-! ### Claim C10: an empty metrics record is a complete no-op -/

/-- C10: write_sample with an empty metrics record returns the writer state
unchanged: no file entry is created, no header or row is appended, and the
schema state is untouched. -/
theorem c10_empty_record_write_is_noop :
    ∀ (st : WriterState) (node : String) (t : ℚ),
      write_sample st node t [] = st :=
  fun _ _ _ => rfl

end Collect
